import Mathlib

/-!
# Verification of the number-reconciliation core (`src/app.py`)

Shallow embedding of the pure number logic (`normalize_to_digits`,
`to_dn_and_target`, `expand_numbers`, `expand_preview`) and of the three
reconciliation operations (`fix_enp`, `fix_nprn`, `fix_disp`), the latter
modelled as state transformers over explicit store states together with an
event trace recording every store interaction.
-/

namespace App

/-- Error taxonomy: one constructor per distinct raise site in the source. -/
inductive AppError where
  | unsupportedNumberFormat (raw : String)
  | badRangeFormat
  | rangeEndBeforeStart
  | rangeTooLarge
  | storeOperationFailed
deriving DecidableEq, Repr

/-- Python `re.sub(r"\D+", "", s)`: keep only decimal digit characters. -/
def normalize_to_digits (s : String) : String :=
  String.mk (s.data.filter Char.isDigit)

/-- A whitespace character as matched by Python's `\s` (ASCII range). -/
def isSpaceChar (c : Char) : Bool :=
  c = ' ' || c = '\t' || c = '\n' || c = '\r' || c = '\x0b' || c = '\x0c'

/-- Python `re.sub(r"\s+", "", expr)`: remove all whitespace. -/
def stripWhitespace (s : String) : String :=
  String.mk (s.data.filter (fun c => !isSpaceChar c))

/-- Python `s.startswith(p)` via the underlying char lists. -/
def strStartsWith (s p : String) : Bool :=
  p.data.isPrefixOf s.data

/-- Python `s[n:]` on a string. -/
def strDrop (s : String) (n : Nat) : String :=
  String.mk (s.data.drop n)

/-- Function `to_dn_and_target` from the source: classify one raw number into the
`(dn, target)` pair or reject it. -/
def to_dn_and_target (number : String) : Except AppError (String × String) :=
  let raw := normalize_to_digits number
  if raw.length = 10 && strStartsWith raw "0" then
    .ok ("41" ++ strDrop raw 1, raw)
  else if raw.length = 11 && strStartsWith raw "41" then
    .ok (raw, "0" ++ strDrop raw 2)
  else
    .error (.unsupportedNumberFormat number)

/-- Python `s.split("-", 1)` on the char list: the part before the first
dash and the part after it (the dash itself dropped). -/
def splitDash : List Char → List Char × List Char
  | [] => ([], [])
  | c :: cs =>
    if c = '-' then ([], cs)
    else
      let p := splitDash cs
      (c :: p.1, p.2)

/-- Numeric value of a decimal digit string (Python `int` on an all-digit
string), via left fold. -/
def digitsToNat (cs : List Char) : Nat :=
  cs.foldl (fun a c => 10 * a + (c.toNat - 48)) 0

/-- Python `str(n).zfill(width)` for a nonnegative `n` already rendered:
left-pad with `'0'` up to `width`; longer strings are unchanged. -/
def zfill (s : String) (width : Nat) : String :=
  String.mk (List.replicate (width - s.length) '0' ++ s.data)

/-- Local `start_digits` of `expand_numbers`: digits of the part before the
first dash of the (already whitespace-stripped) string. -/
def startDigitsOf (s : String) : List Char :=
  (splitDash s.data).1.filter Char.isDigit

/-- Local `end_digits` of `expand_numbers`. -/
def endDigitsOf (s : String) : List Char :=
  (splitDash s.data).2.filter Char.isDigit

/-- Local `end_full` of `expand_numbers`: width harmonization, borrowing the
leading characters of `start_digits` when `end_digits` is shorter. -/
def endFullOf (s : String) : List Char :=
  let sd := startDigitsOf s
  let ed := endDigitsOf s
  if ed.length < sd.length then sd.take (sd.length - ed.length) ++ ed else ed

/-- Function `expand_numbers` from the source: expand a possibly-ranged expression
into the list of rendered numbers, or reject it. -/
def expand_numbers (expr : String) (max_span : Nat) : Except AppError (List String) :=
  let s := stripWhitespace expr
  if !s.data.contains '-' then
    .ok [s]
  else
    let start_digits := startDigitsOf s
    let end_digits := endDigitsOf s
    if start_digits.isEmpty || end_digits.isEmpty then
      .error .badRangeFormat
    else
      let start_i := digitsToNat start_digits
      let end_i := digitsToNat (endFullOf s)
      if end_i < start_i then
        .error .rangeEndBeforeStart
      else
        let span := end_i - start_i + 1
        if span > max_span then
          .error .rangeTooLarge
        else
          let width := start_digits.length
          .ok ((List.range span).map (fun k => zfill (Nat.repr (start_i + k)) width))

/-- Fuel-indexed power of ten matching the number of digits `Nat.toDigitsCore`
emits for `n` with the given fuel. -/
def b10 : Nat → Nat → Nat
  | 0, _ => 1
  | fuel + 1, n => if n / 10 = 0 then 10 else 10 * b10 fuel (n / 10)

deriving instance DecidableEq for Except

/-- The preview record built by `expand_preview` (result-dict fields). -/
structure Preview where
  count : Nat
  expanded_targets : List String
  expanded_dns : List String
  expanded_redis_keys : List String
deriving DecidableEq, Repr

/-- The classification loop of `expand_preview`: left to right, the first
failure aborts the whole call. -/
def classifyAll : List String → Except AppError (List (String × String))
  | [] => .ok []
  | t :: ts =>
    match to_dn_and_target t with
    | .error e => .error e
    | .ok p =>
      match classifyAll ts with
      | .error e => .error e
      | .ok ps => .ok (p :: ps)

/-- Function `expand_preview` from the source: expand, classify every element
(fail-fast), and assemble the three parallel lists. -/
def expand_preview (expr : String) : Except AppError Preview :=
  match expand_numbers expr 100 with
  | .error e => .error e
  | .ok targets =>
    match classifyAll targets with
    | .error e => .error e
    | .ok pairs =>
      let dns := pairs.map (fun p => p.1)
      let ttargets := pairs.map (fun p => p.2)
      let redis_keys := dns.map (fun dn => "nprn:routing:" ++ dn)
      .ok ⟨ttargets.length, ttargets, dns, redis_keys⟩

/-- The request body shared by the three operations (`FixRequest`). -/
inductive EnpTarget where
  | NXP1
  | NXP2
deriving DecidableEq, Repr

structure FixRequest where
  input : String
  dry_run : Bool
  enp_target : EnpTarget
deriving DecidableEq, Repr

/-- The `ENP_MAP` lookup table of `fix_enp`: `(system_id, nprn)` per target. -/
def ENP_MAP : EnpTarget → Nat × Nat
  | .NXP1 => (500, 98067)
  | .NXP2 => (510, 98019)

/-- One row of the relational `numbers` table, with the columns the bulk
update of `fix_enp` touches. -/
structure NumberRow where
  dn : String
  reservation_tstamp : String
  product_id : Int
  system_id : Int
  nprn : Int
  outporting_tstamp : Option String
  lastupdated_tstamp : String
deriving DecidableEq, Repr

/-- Store interactions of `fix_enp` against the relational store. -/
inductive PgEvent where
  | connect
  | executeUpdate (system_id nprn : Nat) (dns : List String)
deriving DecidableEq, Repr

/-- The row transformation of the bulk `UPDATE numbers SET ...` statement. -/
def updatedNumberRow (system_id nprn : Nat) (now : String) (r : NumberRow) : NumberRow :=
  { r with
    reservation_tstamp := "2050-01-01 00:00:00"
    product_id := 1
    system_id := (system_id : Int)
    nprn := (nprn : Int)
    outporting_tstamp := none
    lastupdated_tstamp := now }

/-- Effect of the bulk update on the `numbers` table: the new table and the
`RETURNING dn` list of the matched rows. -/
def runEnpUpdate (system_id nprn : Nat) (now : String) (dns : List String)
    (table : List NumberRow) : List NumberRow × List String :=
  (table.map (fun r => if dns.contains r.dn then updatedNumberRow system_id nprn now r else r),
   (table.filter (fun r => dns.contains r.dn)).map (fun r => r.dn))

/-- Result record of `fix_enp`; `updated_dns` is present only on the live path. -/
structure EnpResponse where
  dry_run : Bool
  enp_target : EnpTarget
  preview : Preview
  system_id : Nat
  nprn : Nat
  updated_dns : Option (List String)
deriving DecidableEq, Repr

/-- Op A (`fix_enp`): relational reassignment, modelled over the `numbers`
table with an explicit trace of store events; `now` stands for `NOW()`. -/
def fix_enp (body : FixRequest) (now : String) (pg : List NumberRow) :
    Except AppError EnpResponse × List NumberRow × List PgEvent :=
  match expand_preview body.input with
  | .error e => (.error e, pg, [])
  | .ok prev =>
    let cfg := ENP_MAP body.enp_target
    if body.dry_run then
      (.ok ⟨true, body.enp_target, prev, cfg.1, cfg.2, none⟩, pg, [])
    else
      let dns := prev.expanded_dns
      let res := runEnpUpdate cfg.1 cfg.2 now dns pg
      (.ok ⟨false, body.enp_target, prev, cfg.1, cfg.2, some res.2⟩, res.1,
       [.connect, .executeUpdate cfg.1 cfg.2 dns])

/-- Store interactions of `fix_nprn` against the key-value store. -/
inductive RedisEvent where
  | connect
  | selectDb (db : Nat)
  | del (key : String)
deriving DecidableEq, Repr

/-- Result record of `fix_nprn`; `deleted_counts` only on the live path. -/
structure NprnResponse where
  dry_run : Bool
  preview : Preview
  redis_db : Nat
  deleted_counts : Option (List Nat)
deriving DecidableEq, Repr

/-- One `DEL` per key, in order: each returns 1 when the key was present and
removes it, 0 otherwise (the cache is the list of existing keys). -/
def runRedisDeletes (keys : List String) (cache : List String) : List String × List Nat :=
  match keys with
  | [] => (cache, [])
  | k :: ks =>
    let cnt := if cache.contains k then 1 else 0
    let rest := runRedisDeletes ks (cache.filter (fun x => x != k))
    (rest.1, cnt :: rest.2)

/-- Op B (`fix_nprn`): cache invalidation over the key-value store. -/
def fix_nprn (body : FixRequest) (redis_db : Nat) (cache : List String) :
    Except AppError NprnResponse × List String × List RedisEvent :=
  match expand_preview body.input with
  | .error e => (.error e, cache, [])
  | .ok prev =>
    if body.dry_run then
      (.ok ⟨true, prev, redis_db, none⟩, cache, [])
    else
      let res := runRedisDeletes prev.expanded_redis_keys cache
      (.ok ⟨false, prev, redis_db, some res.2⟩, res.1,
       .connect :: .selectDb redis_db :: prev.expanded_redis_keys.map RedisEvent.del)

/-- One row of the provisioning `cli_provisioning` table (the columns the
snapshot query selects). -/
structure ProvRow where
  id : Nat
  target_number : String
  target_system : String
  tenant : String
  nprn : Nat
  insert_date : String
deriving DecidableEq, Repr

/-- Store interactions of `fix_disp` against the provisioning store. -/
inductive MdbEvent where
  | connect
  | query (targets : List String)
  | del (targets : List String)
  | commit
  | rollback
  | close
deriving DecidableEq, Repr

/-- Result record of `fix_disp`; the dry-run fields and the live fields are
mutually exclusive, as in the source's two return dicts. -/
structure DispResponse where
  dry_run : Bool
  preview : Preview
  would_delete_count : Option Nat
  would_delete_rows : Option (List ProvRow)
  deleted_count : Option Nat
  deleted_rows : Option (List ProvRow)
deriving DecidableEq, Repr

/-- Op C (`fix_disp`): provisioning cleanup. `delete_fails` injects a store
error at the `DELETE` statement; on that path the `except` clause rolls the
open transaction back (committed state untouched) before re-raising, and the
`finally` clause closes the connection. -/
def fix_disp (body : FixRequest) (delete_fails : Bool) (prov : List ProvRow) :
    Except AppError DispResponse × List ProvRow × List MdbEvent :=
  match expand_preview body.input with
  | .error e => (.error e, prov, [])
  | .ok prev =>
    let targets := prev.expanded_targets
    let rows := prov.filter (fun r => targets.contains r.target_number)
    if body.dry_run then
      (.ok ⟨true, prev, some rows.length, some rows, none, none⟩, prov,
       [.connect, .query targets, .close])
    else if delete_fails then
      (.error .storeOperationFailed, prov,
       [.connect, .query targets, .del targets, .rollback, .close])
    else
      let remaining := prov.filter (fun r => !targets.contains r.target_number)
      (.ok ⟨false, prev, none, none, some rows.length, some rows⟩, remaining,
       [.connect, .query targets, .del targets, .commit, .close])

/-! ## Theorems -/

/-- The decimal digit characters produced by `Nat.digitChar` decode back to
their value. -/
theorem digitChar_val : ∀ m, m < 10 → (Nat.digitChar m).toNat - 48 = m := by decide

/-- Function `Nat.digitChar` yields a digit character below ten. -/
theorem digitChar_isDigit : ∀ m, m < 10 → (Nat.digitChar m).isDigit = true := by decide

/-- Folding the decimal-value step over the digits emitted by
`Nat.toDigitsCore` computes `a * 10 ^ digits + n` before continuing on. -/
theorem toDigitsCore_foldl (fuel : Nat) :
    ∀ n, n < fuel → ∀ (a : Nat) (ds : List Char),
      (Nat.toDigitsCore 10 fuel n ds).foldl (fun a c => 10 * a + (c.toNat - 48)) a =
        ds.foldl (fun a c => 10 * a + (c.toNat - 48)) (a * b10 fuel n + n) := by
  induction fuel with
  | zero => intro n hn; omega
  | succ f ih =>
    intro n hn a ds
    by_cases hdiv : n / 10 = 0
    · have hn10 : n < 10 := by omega
      simp only [Nat.toDigitsCore, hdiv, if_pos, List.foldl_cons, b10]
      rw [digitChar_val _ (Nat.mod_lt n (by norm_num))]
      have : n % 10 = n := Nat.mod_eq_of_lt hn10
      rw [this, Nat.mul_comm a 10]
    · have hnpos : 0 < n := by
        rcases Nat.eq_zero_or_pos n with h0 | h; · simp [h0] at hdiv
        · exact h
      have hlt : n / 10 < f := by
        have h1 : n / 10 < n := Nat.div_lt_self hnpos (by norm_num)
        omega
      simp only [Nat.toDigitsCore, hdiv, if_neg, if_false, b10]
      rw [ih (n / 10) hlt a (Nat.digitChar (n % 10) :: ds)]
      simp only [List.foldl_cons]
      rw [digitChar_val _ (Nat.mod_lt n (by norm_num))]
      have hdm : 10 * (n / 10) + n % 10 = n := Nat.div_add_mod n 10
      congr 1
      calc 10 * (a * b10 f (n / 10) + n / 10) + (n % 10)
          = a * (10 * b10 f (n / 10)) + (10 * (n / 10) + n % 10) := by ring
        _ = a * (10 * b10 f (n / 10)) + n := by rw [hdm]

/-- Decoding the decimal rendering of `n` gives back `n`. -/
theorem digitsToNat_repr (n : Nat) : digitsToNat (Nat.repr n).data = n := by
  have h := toDigitsCore_foldl (n + 1) n (Nat.lt_succ_self n) 0 []
  simp only [List.foldl_nil, Nat.zero_mul, Nat.zero_add] at h
  simpa [Nat.repr, Nat.toDigits, List.asString, digitsToNat] using h

/-- Every character emitted by `Nat.toDigitsCore` at base ten on top of an
all-digit accumulator is a digit. -/
theorem toDigitsCore_all_digits (fuel : Nat) :
    ∀ n (ds : List Char), (∀ c ∈ ds, c.isDigit = true) →
      ∀ c ∈ Nat.toDigitsCore 10 fuel n ds, c.isDigit = true := by
  induction fuel with
  | zero => intro n ds hds; simpa [Nat.toDigitsCore] using hds
  | succ f ih =>
    intro n ds hds
    by_cases hdiv : n / 10 = 0
    · simp only [Nat.toDigitsCore, hdiv, if_pos]
      intro c hc
      rcases List.mem_cons.mp hc with h | h
      · subst h; exact digitChar_isDigit _ (Nat.mod_lt n (by norm_num))
      · exact hds c h
    · simp only [Nat.toDigitsCore, hdiv, if_neg]
      refine ih (n / 10) _ ?_
      intro c hc
      rcases List.mem_cons.mp hc with h | h
      · subst h; exact digitChar_isDigit _ (Nat.mod_lt n (by norm_num))
      · exact hds c h

/-- Every character of the decimal rendering of a natural number is a digit. -/
theorem repr_all_digits (n : Nat) : ∀ c ∈ (Nat.repr n).data, c.isDigit = true := by
  have := toDigitsCore_all_digits (n + 1) n [] (by simp)
  simpa [Nat.repr, Nat.toDigits, List.asString] using this

/-- Left zero padding does not change the decoded value. -/
theorem digitsToNat_zfill (s : String) (w : Nat) :
    digitsToNat (zfill s w).data = digitsToNat s.data := by
  show digitsToNat (List.replicate (w - s.length) '0' ++ s.data) = _
  unfold digitsToNat
  rw [List.foldl_append]
  congr 1
  induction (w - s.length) with
  | zero => rfl
  | succ m ihm => simpa [List.replicate_succ] using ihm

/-- The padded rendering is at least as wide as the requested width. -/
theorem zfill_length_ge (s : String) (w : Nat) : w ≤ (zfill s w).length := by
  have h : (zfill s w).length = (w - s.data.length) + s.data.length := by
    show (List.replicate (w - s.length) '0' ++ s.data).length = _
    rw [List.length_append, List.length_replicate]
    rfl
  omega

/-- Every character of a padded rendering of a natural number is a digit. -/
theorem zfill_repr_all_digits (n w : Nat) :
    ∀ c ∈ (zfill (Nat.repr n) w).data, c.isDigit = true := by
  intro c hc
  rcases List.mem_append.mp hc with h | h
  · rw [List.eq_of_mem_replicate h]; decide
  · exact repr_all_digits n c h

theorem isEmpty_false_of_ne_nil {α : Type} (l : List α) (h : l ≠ []) : l.isEmpty = false := by
  cases l with
  | nil => exact absurd rfl h
  | cons a as => rfl

/-- On a dash-containing (whitespace-stripped) input, `expand_numbers` is the
validation chain followed by the padded rendering of the integer range. -/
theorem expand_numbers_dash (expr : String) (max_span : Nat)
    (hdash : (stripWhitespace expr).data.contains '-' = true) :
    expand_numbers expr max_span =
      (if ((startDigitsOf (stripWhitespace expr)).isEmpty ||
           (endDigitsOf (stripWhitespace expr)).isEmpty) = true then
        .error .badRangeFormat
      else if digitsToNat (endFullOf (stripWhitespace expr)) <
              digitsToNat (startDigitsOf (stripWhitespace expr)) then
        .error .rangeEndBeforeStart
      else if digitsToNat (endFullOf (stripWhitespace expr)) -
              digitsToNat (startDigitsOf (stripWhitespace expr)) + 1 > max_span then
        .error .rangeTooLarge
      else
        .ok ((List.range (digitsToNat (endFullOf (stripWhitespace expr)) -
               digitsToNat (startDigitsOf (stripWhitespace expr)) + 1)).map
             (fun k => zfill (Nat.repr (digitsToNat (startDigitsOf (stripWhitespace expr)) + k))
               (startDigitsOf (stripWhitespace expr)).length))) := by
  simp only [expand_numbers]
  rw [hdash]
  rfl

/-- C2: `to_dn_and_target` strips non-digits, accepts exactly the
10-digit-leading-`0` and 11-digit-leading-`41` shapes with the stated
`dn`/`target` constructions, and rejects everything else with
`UnsupportedNumberFormat` carrying the raw input. -/
theorem to_dn_and_target_cases (s : String) :
    ((normalize_to_digits s).length = 10 → strStartsWith (normalize_to_digits s) "0" = true →
      to_dn_and_target s =
        .ok ("41" ++ strDrop (normalize_to_digits s) 1, normalize_to_digits s)) ∧
    ((normalize_to_digits s).length = 11 → strStartsWith (normalize_to_digits s) "41" = true →
      to_dn_and_target s =
        .ok (normalize_to_digits s, "0" ++ strDrop (normalize_to_digits s) 2)) ∧
    (¬((normalize_to_digits s).length = 10 ∧ strStartsWith (normalize_to_digits s) "0" = true) →
     ¬((normalize_to_digits s).length = 11 ∧ strStartsWith (normalize_to_digits s) "41" = true) →
      to_dn_and_target s = .error (.unsupportedNumberFormat s)) := by
  refine ⟨?_, ?_, ?_⟩
  · intro h1 h2
    simp [to_dn_and_target, h1, h2]
  · intro h1 h2
    simp [to_dn_and_target, h1, h2]
  · intro h1 h2
    simp only [to_dn_and_target]
    rw [if_neg, if_neg] <;>
      · intro hcond
        rw [Bool.and_eq_true, decide_eq_true_eq] at hcond
        first
        | exact h1 hcond
        | exact h2 hcond

/-- Witness for C2: the 10-digit branch at `"0412345678"`. -/
theorem to_dn_and_target_cases_witness :
    to_dn_and_target "0412345678" = .ok ("41412345678", "0412345678") :=
  ((to_dn_and_target_cases "0412345678").1 (by decide) (by decide)).trans (by decide)

/-- C6: for a valid all-digit 10-character local number starting with `0`,
`to_dn_and_target` returns `("41" ++ s[1:], s)`, and re-deriving the target
from the produced `dn` as `"0" + dn[2:]` gives back the input, so the two
invariants `dn = "41" + target[1:]` and `target = "0" + dn[2:]` hold at once. -/
theorem to_dn_and_target_roundtrip (s : String)
    (hlen : s.data.length = 10)
    (hdig : ∀ c ∈ s.data, c.isDigit = true)
    (hzero : s.data.head? = some '0') :
    to_dn_and_target s = .ok ("41" ++ strDrop s 1, s) ∧
    "0" ++ strDrop ("41" ++ strDrop s 1) 2 = s := by
  have hnorm : normalize_to_digits s = s := by
    show String.mk (s.data.filter Char.isDigit) = s
    rw [List.filter_eq_self.mpr hdig]
  obtain ⟨t, ht⟩ : ∃ t, s.data = '0' :: t := by
    cases hd : s.data with
    | nil => rw [hd] at hzero; simp at hzero
    | cons c cs =>
      rw [hd] at hzero
      simp only [List.head?_cons, Option.some_inj] at hzero
      exact ⟨cs, by rw [hzero]⟩
  constructor
  · simp only [to_dn_and_target, hnorm]
    rw [if_pos]
    simp only [Bool.and_eq_true, decide_eq_true_eq]
    refine ⟨?_, ?_⟩
    · exact hlen
    · show List.isPrefixOf "0".data s.data = true
      rw [ht]
      simp [List.isPrefixOf]
  · apply String.ext
    show '0' :: (('4' :: '1' :: (s.data.drop 1)).drop 2) = s.data
    rw [ht]
    simp

/-- Witness for C6 at `"0412345678"`. -/
theorem to_dn_and_target_roundtrip_witness :
    to_dn_and_target "0412345678" = .ok ("41" ++ strDrop "0412345678" 1, "0412345678") ∧
    "0" ++ strDrop ("41" ++ strDrop "0412345678" 1) 2 = "0412345678" :=
  to_dn_and_target_roundtrip "0412345678" (by decide) (by decide) (by decide)

/-- Classification `to_dn_and_target` can only fail with `UnsupportedNumberFormat`, carrying
its raw argument. -/
theorem to_dn_and_target_error (s : String) (e : AppError)
    (h : to_dn_and_target s = .error e) : e = .unsupportedNumberFormat s := by
  simp only [to_dn_and_target] at h
  split at h
  · exact absurd h (by simp)
  · split at h
    · exact absurd h (by simp)
    · simpa using h.symm

/-- C10: on any input whose whitespace-stripped form has no dash,
`expand_numbers` returns the singleton of the stripped string for every
`max_span`, with no validation; hence `expand_preview` on such an input can
only fail with `UnsupportedNumberFormat`. -/
theorem expand_no_dash (expr : String)
    (h : (stripWhitespace expr).data.contains '-' = false) :
    (∀ max_span, expand_numbers expr max_span = .ok [stripWhitespace expr]) ∧
    (∀ e, expand_preview expr = .error e → e = .unsupportedNumberFormat (stripWhitespace expr)) := by
  have hexp : ∀ max_span, expand_numbers expr max_span = .ok [stripWhitespace expr] := by
    intro max_span
    simp only [expand_numbers]
    rw [h]
    rfl
  refine ⟨hexp, ?_⟩
  intro e he
  simp only [expand_preview, hexp 100] at he
  cases hc : to_dn_and_target (stripWhitespace expr) with
  | error e2 =>
    simp only [classifyAll, hc] at he
    cases he
    exact to_dn_and_target_error _ _ hc
  | ok pair =>
    simp only [classifyAll, hc] at he
    cases he

/-- Witness for C10 at the empty string. -/
theorem expand_no_dash_witness :
    expand_numbers "" 5 = .ok [stripWhitespace ""] ∧
    AppError.unsupportedNumberFormat "" = .unsupportedNumberFormat (stripWhitespace "") :=
  ⟨(expand_no_dash "" rfl).1 5, (expand_no_dash "" rfl).2 _ (by decide)⟩

/-- C5: when `expand_preview` fails, each of the three operations forwards
exactly that error, leaves its store state untouched and emits no store
event at all. -/
theorem ops_no_store_on_validation_error (body : FixRequest) (now : String)
    (pg : List NumberRow) (redis_db : Nat) (cache : List String)
    (delete_fails : Bool) (prov : List ProvRow) (e : AppError)
    (h : expand_preview body.input = .error e) :
    fix_enp body now pg = (.error e, pg, []) ∧
    fix_nprn body redis_db cache = (.error e, cache, []) ∧
    fix_disp body delete_fails prov = (.error e, prov, []) := by
  refine ⟨?_, ?_, ?_⟩ <;> simp [fix_enp, fix_nprn, fix_disp, h]

/-- Witness for C5: a classify failure on an 8-digit input reaches the caller
of each operation with empty traces and unchanged stores. -/
theorem ops_no_store_on_validation_error_witness :
    fix_enp ⟨"98765432", false, .NXP1⟩ "t" [] =
      (.error (.unsupportedNumberFormat "98765432"), [], []) ∧
    fix_nprn ⟨"98765432", false, .NXP1⟩ 9 ["nprn:routing:41412345678"] =
      (.error (.unsupportedNumberFormat "98765432"), ["nprn:routing:41412345678"], []) ∧
    fix_disp ⟨"98765432", false, .NXP1⟩ false [] =
      (.error (.unsupportedNumberFormat "98765432"), [], []) :=
  ops_no_store_on_validation_error ⟨"98765432", false, .NXP1⟩ "t" [] 9
    ["nprn:routing:41412345678"] false [] _ (by decide)

/-- C7: dry-run Op A emits no store event, leaves the table unchanged, and
echoes the `(system_id, nprn)` profile of the requested target, the lookup
table being exactly `NXP1 ↦ (500, 98067)`, `NXP2 ↦ (510, 98019)`. -/
theorem fix_enp_dry_run (body : FixRequest) (now : String) (pg : List NumberRow)
    (prev : Preview) (hdry : body.dry_run = true)
    (hprev : expand_preview body.input = .ok prev) :
    fix_enp body now pg =
      (.ok ⟨true, body.enp_target, prev, (ENP_MAP body.enp_target).1,
            (ENP_MAP body.enp_target).2, none⟩, pg, []) ∧
    ENP_MAP .NXP1 = (500, 98067) ∧ ENP_MAP .NXP2 = (510, 98019) := by
  refine ⟨?_, rfl, rfl⟩
  simp [fix_enp, hprev, hdry]

/-- Witness for C7 at a concrete dry-run request against a nonempty table. -/
theorem fix_enp_dry_run_witness :
    fix_enp ⟨"0412345678", true, .NXP2⟩ "t" [⟨"41412345678", "r", 7, 1, 2, none, "u"⟩] =
      (.ok ⟨true, .NXP2,
            ⟨1, ["0412345678"], ["41412345678"], ["nprn:routing:41412345678"]⟩,
            (ENP_MAP .NXP2).1, (ENP_MAP .NXP2).2, none⟩,
       [⟨"41412345678", "r", 7, 1, 2, none, "u"⟩], []) ∧
    ENP_MAP .NXP1 = (500, 98067) ∧ ENP_MAP .NXP2 = (510, 98019) :=
  fix_enp_dry_run ⟨"0412345678", true, .NXP2⟩ "t" [⟨"41412345678", "r", 7, 1, 2, none, "u"⟩]
    ⟨1, ["0412345678"], ["41412345678"], ["nprn:routing:41412345678"]⟩ rfl (by decide)

/-- C1: on a dash-containing range expression that passes validation,
`expand_numbers` builds `end_full` by borrowing the leading
`len(start_digits) - len(end_digits)` characters of `start_digits` exactly
when `end_digits` is shorter, and returns the decimal rendering of every
integer from `start_i` to `end_i` inclusive, left-zero-padded to
`len(start_digits)`, ascending; in particular
`expand_numbers "0412345678-681"` is the four-element list
`["0412345678", "0412345679", "0412345680", "0412345681"]`. -/
theorem expand_numbers_range_spec :
    (∀ expr : String,
      (stripWhitespace expr).data.contains '-' = true →
      startDigitsOf (stripWhitespace expr) ≠ [] →
      endDigitsOf (stripWhitespace expr) ≠ [] →
      endFullOf (stripWhitespace expr) =
        (if (endDigitsOf (stripWhitespace expr)).length <
            (startDigitsOf (stripWhitespace expr)).length then
          (startDigitsOf (stripWhitespace expr)).take
              ((startDigitsOf (stripWhitespace expr)).length -
               (endDigitsOf (stripWhitespace expr)).length) ++
            endDigitsOf (stripWhitespace expr)
        else endDigitsOf (stripWhitespace expr)) ∧
      (digitsToNat (startDigitsOf (stripWhitespace expr)) ≤
         digitsToNat (endFullOf (stripWhitespace expr)) →
       digitsToNat (endFullOf (stripWhitespace expr)) -
         digitsToNat (startDigitsOf (stripWhitespace expr)) + 1 ≤ 100 →
       expand_numbers expr 100 =
         .ok ((List.range (digitsToNat (endFullOf (stripWhitespace expr)) -
                digitsToNat (startDigitsOf (stripWhitespace expr)) + 1)).map
              (fun k => zfill
                (Nat.repr (digitsToNat (startDigitsOf (stripWhitespace expr)) + k))
                (startDigitsOf (stripWhitespace expr)).length)))) ∧
    expand_numbers "0412345678-681" 100 =
      .ok ["0412345678", "0412345679", "0412345680", "0412345681"] := by
  constructor
  · intro expr hdash hsd hed
    refine ⟨rfl, ?_⟩
    intro hle hspan
    have h1 : ¬ (((startDigitsOf (stripWhitespace expr)).isEmpty ||
        (endDigitsOf (stripWhitespace expr)).isEmpty) = true) := by
      rw [isEmpty_false_of_ne_nil _ hsd, isEmpty_false_of_ne_nil _ hed]
      simp
    have h2 : ¬ (digitsToNat (endFullOf (stripWhitespace expr)) <
        digitsToNat (startDigitsOf (stripWhitespace expr))) := Nat.not_lt.mpr hle
    have h3 : ¬ (digitsToNat (endFullOf (stripWhitespace expr)) -
        digitsToNat (startDigitsOf (stripWhitespace expr)) + 1 > 100) :=
      Nat.not_lt.mpr hspan
    rw [expand_numbers_dash expr 100 hdash, if_neg h1, if_neg h2, if_neg h3]
  · decide

/-- Witness for C1: the example range, with every validation hypothesis
discharged concretely. -/
theorem expand_numbers_range_spec_witness :
    expand_numbers "0412345678-681" 100 =
      .ok ["0412345678", "0412345679", "0412345680", "0412345681"] :=
  (((expand_numbers_range_spec.1 "0412345678-681" (by decide) (by decide)
      (by decide)).2 (by decide) (by decide)).trans (by decide))

/-- C4: on dash-containing input, `expand_numbers` fails with
`BadRangeFormat` iff a part is empty after digit stripping; otherwise with
`RangeEndBeforeStart` iff `end_i < start_i`; otherwise with `RangeTooLarge`
iff the span exceeds `max_span`; otherwise it succeeds. With the default
ceiling of 100, a span of exactly 100 succeeds and a span of 101 fails. -/
theorem expand_numbers_error_iff :
    (∀ (expr : String) (max_span : Nat),
      (stripWhitespace expr).data.contains '-' = true →
      (expand_numbers expr max_span = .error .badRangeFormat ↔
        (startDigitsOf (stripWhitespace expr) = [] ∨
         endDigitsOf (stripWhitespace expr) = [])) ∧
      (startDigitsOf (stripWhitespace expr) ≠ [] →
       endDigitsOf (stripWhitespace expr) ≠ [] →
        (expand_numbers expr max_span = .error .rangeEndBeforeStart ↔
          digitsToNat (endFullOf (stripWhitespace expr)) <
            digitsToNat (startDigitsOf (stripWhitespace expr))) ∧
        (digitsToNat (startDigitsOf (stripWhitespace expr)) ≤
           digitsToNat (endFullOf (stripWhitespace expr)) →
          (expand_numbers expr max_span = .error .rangeTooLarge ↔
            digitsToNat (endFullOf (stripWhitespace expr)) -
              digitsToNat (startDigitsOf (stripWhitespace expr)) + 1 > max_span) ∧
          (digitsToNat (endFullOf (stripWhitespace expr)) -
             digitsToNat (startDigitsOf (stripWhitespace expr)) + 1 ≤ max_span →
            ∃ l, expand_numbers expr max_span = .ok l)))) ∧
    (∃ l, expand_numbers "0-99" 100 = .ok l) ∧
    expand_numbers "0-100" 100 = .error .rangeTooLarge := by
  refine ⟨?_, ⟨_, rfl⟩, by decide⟩
  intro expr max_span hdash
  have hchar := expand_numbers_dash expr max_span hdash
  by_cases hsd : startDigitsOf (stripWhitespace expr) = []
  · rw [if_pos (by rw [hsd]; rfl)] at hchar
    exact ⟨by simp [hchar, hsd], fun h _ => absurd hsd h⟩
  · by_cases hed : endDigitsOf (stripWhitespace expr) = []
    · rw [if_pos (by rw [hed]; simp)] at hchar
      exact ⟨by simp [hchar, hed], fun _ h => absurd hed h⟩
    · have hne : ¬ (((startDigitsOf (stripWhitespace expr)).isEmpty ||
          (endDigitsOf (stripWhitespace expr)).isEmpty) = true) := by
        rw [isEmpty_false_of_ne_nil _ hsd, isEmpty_false_of_ne_nil _ hed]
        simp
      rw [if_neg hne] at hchar
      by_cases hlt : digitsToNat (endFullOf (stripWhitespace expr)) <
          digitsToNat (startDigitsOf (stripWhitespace expr))
      · rw [if_pos hlt] at hchar
        refine ⟨by simp [hchar, hsd, hed], fun _ _ => ⟨by simp [hchar, hlt], ?_⟩⟩
        intro hle
        exact absurd hlt (Nat.not_lt.mpr hle)
      · rw [if_neg hlt] at hchar
        by_cases hsp : digitsToNat (endFullOf (stripWhitespace expr)) -
            digitsToNat (startDigitsOf (stripWhitespace expr)) + 1 > max_span
        · rw [if_pos hsp] at hchar
          exact ⟨by simp [hchar, hsd, hed], fun _ _ =>
            ⟨by simp [hchar, hlt], fun _ => ⟨by simp [hchar, hsp], fun hle =>
              absurd hsp (Nat.not_lt.mpr hle)⟩⟩⟩
        · rw [if_neg hsp] at hchar
          exact ⟨by simp [hchar, hsd, hed], fun _ _ =>
            ⟨by simp [hchar, hlt], fun _ => ⟨by simp [hchar, hsp], fun _ => ⟨_, hchar⟩⟩⟩⟩

/-- Witness for C4: `"5-3"` settles on the `RangeEndBeforeStart` branch. -/
theorem expand_numbers_error_iff_witness :
    expand_numbers "5-3" 100 = .error .rangeEndBeforeStart :=
  (((expand_numbers_error_iff.1 "5-3" 100 (by decide)).2 (by decide) (by decide)).1).mpr
    (by decide)

/-- C3 (amended): on a dash-containing range expression on which
`expand_numbers` succeeds, every element is a digit string of width at least
`len(start_digits)` (equality can fail when the range crosses a power of
ten), the element count is at most `max_span`, and the elements are in
strictly ascending numeric order. -/
theorem expand_numbers_result_shape (expr : String) (max_span : Nat) (l : List String)
    (hdash : (stripWhitespace expr).data.contains '-' = true)
    (hok : expand_numbers expr max_span = .ok l) :
    (∀ x ∈ l, (∀ c ∈ x.data, c.isDigit = true) ∧
      (startDigitsOf (stripWhitespace expr)).length ≤ x.length) ∧
    l.length ≤ max_span ∧
    l.Pairwise (fun a b => digitsToNat a.data < digitsToNat b.data) := by
  rw [expand_numbers_dash expr max_span hdash] at hok
  split_ifs at hok with h1 h2 h3
  have hspan : digitsToNat (endFullOf (stripWhitespace expr)) -
      digitsToNat (startDigitsOf (stripWhitespace expr)) + 1 ≤ max_span :=
    Nat.not_lt.mp h3
  injection hok with hok
  subst hok
  refine ⟨?_, ?_, ?_⟩
  · intro x hx
    obtain ⟨k, hk, rfl⟩ := List.mem_map.mp hx
    exact ⟨zfill_repr_all_digits _ _, zfill_length_ge _ _⟩
  · simpa using hspan
  · rw [List.pairwise_map]
    refine List.Pairwise.imp ?_ (List.pairwise_lt_range _)
    intro i j hij
    rw [digitsToNat_zfill, digitsToNat_zfill, digitsToNat_repr, digitsToNat_repr]
    omega

/-- Witness for C3 (amended) at the example range. -/
theorem expand_numbers_result_shape_witness :
    (∀ x ∈ ["0412345678", "0412345679", "0412345680", "0412345681"],
      (∀ c ∈ x.data, c.isDigit = true) ∧
      (startDigitsOf (stripWhitespace "0412345678-681")).length ≤ x.length) ∧
    (["0412345678", "0412345679", "0412345680", "0412345681"] : List String).length ≤ 100 ∧
    (["0412345678", "0412345679", "0412345680", "0412345681"] : List String).Pairwise
      (fun a b => digitsToNat a.data < digitsToNat b.data) :=
  expand_numbers_result_shape "0412345678-681" 100
    ["0412345678", "0412345679", "0412345680", "0412345681"] (by decide) (by decide)

/-- Counterexample for C3 as stated: `"99-101"` passes validation, yet the
returned elements are not all of the width of the range start (2): the
element `"100"` has width 3. Moreover on the dashless expression `"abc"`
the call succeeds and returns an element that is not a digit string at all. -/
theorem expand_numbers_equal_width_cex :
    (expand_numbers "99-101" 100 = .ok ["99", "100", "101"] ∧
     (startDigitsOf (stripWhitespace "99-101")).length = 2 ∧
     ¬ (∀ x ∈ ["99", "100", "101"],
         x.length = (startDigitsOf (stripWhitespace "99-101")).length)) ∧
    (expand_numbers "abc" 100 = .ok ["abc"] ∧
     ¬ (∀ x ∈ ["abc"], ∀ c ∈ x.data, c.isDigit = true)) := by
  refine ⟨⟨by decide, by decide, ?_⟩, by decide, ?_⟩
  · intro h
    have := h "100" (by simp)
    simp [startDigitsOf, stripWhitespace, splitDash] at this
    exact absurd this (by decide)
  · intro h
    have := h "abc" (by simp) 'a' (by simp)
    exact absurd this (by decide)

/-- C8: live Op C runs the snapshot query and the delete inside one
connection; when the delete raises, the transaction is rolled back before
the error reaches the caller and no row is deleted; on success it commits
and the result carries the original snapshot together with the
store-reported deleted row count. -/
theorem fix_disp_live_transaction (body : FixRequest) (prov : List ProvRow)
    (prev : Preview) (hlive : body.dry_run = false)
    (hprev : expand_preview body.input = .ok prev) :
    fix_disp body true prov =
      (.error .storeOperationFailed, prov,
       [.connect, .query prev.expanded_targets, .del prev.expanded_targets,
        .rollback, .close]) ∧
    fix_disp body false prov =
      (.ok ⟨false, prev, none, none,
            some (prov.filter
              (fun r => prev.expanded_targets.contains r.target_number)).length,
            some (prov.filter
              (fun r => prev.expanded_targets.contains r.target_number))⟩,
       prov.filter (fun r => !prev.expanded_targets.contains r.target_number),
       [.connect, .query prev.expanded_targets, .del prev.expanded_targets,
        .commit, .close]) := by
  constructor <;> simp [fix_disp, hprev, hlive]

/-- Witness for C8: one matching and one unrelated provisioning row. -/
theorem fix_disp_live_transaction_witness :
    fix_disp ⟨"0412345678", false, .NXP1⟩ true
        [⟨1, "0412345678", "s", "t", 5, "d"⟩, ⟨2, "0499999999", "s", "t", 6, "d"⟩] =
      (.error .storeOperationFailed,
       [⟨1, "0412345678", "s", "t", 5, "d"⟩, ⟨2, "0499999999", "s", "t", 6, "d"⟩],
       [.connect, .query ["0412345678"], .del ["0412345678"], .rollback, .close]) ∧
    fix_disp ⟨"0412345678", false, .NXP1⟩ false
        [⟨1, "0412345678", "s", "t", 5, "d"⟩, ⟨2, "0499999999", "s", "t", 6, "d"⟩] =
      (.ok ⟨false, ⟨1, ["0412345678"], ["41412345678"], ["nprn:routing:41412345678"]⟩,
            none, none, some 1, some [⟨1, "0412345678", "s", "t", 5, "d"⟩]⟩,
       [⟨2, "0499999999", "s", "t", 6, "d"⟩],
       [.connect, .query ["0412345678"], .del ["0412345678"], .commit, .close]) := by
  have h := fix_disp_live_transaction ⟨"0412345678", false, .NXP1⟩
    [⟨1, "0412345678", "s", "t", 5, "d"⟩, ⟨2, "0499999999", "s", "t", 6, "d"⟩]
    ⟨1, ["0412345678"], ["41412345678"], ["nprn:routing:41412345678"]⟩ rfl (by decide)
  exact ⟨h.1.trans (by decide), h.2.trans (by decide)⟩

/-- C9: live Op A's bulk update also sets `product_id` to `1` on every
matched row (a column beyond the spec's listed fields), while leaving
unmatched rows untouched; so a matched row's `product_id` never survives a
live Op A unless it was already `1`. -/
theorem fix_enp_live_product_id (body : FixRequest) (now : String)
    (pg : List NumberRow) (prev : Preview) (hlive : body.dry_run = false)
    (hprev : expand_preview body.input = .ok prev) :
    List.Forall₂ (fun r rr =>
        (prev.expanded_dns.contains r.dn = true →
          rr.product_id = 1 ∧ rr.dn = r.dn ∧
          rr = updatedNumberRow (ENP_MAP body.enp_target).1
                 (ENP_MAP body.enp_target).2 now r) ∧
        (prev.expanded_dns.contains r.dn = false → rr = r))
      pg (fix_enp body now pg).2.1 := by
  simp only [fix_enp, hprev, hlive, runEnpUpdate, Bool.false_eq_true, if_false]
  rw [List.forall₂_map_right_iff]
  rw [List.forall₂_same]
  intro r hr
  by_cases hc : prev.expanded_dns.contains r.dn
  · rw [if_pos hc]
    exact ⟨fun _ => ⟨rfl, rfl, rfl⟩, fun hfalse => by rw [hc] at hfalse; cases hfalse⟩
  · rw [if_neg hc]
    refine ⟨fun htrue => absurd htrue hc, fun _ => rfl⟩

/-- Witness for C9: a live request over a matched and an unmatched row. -/
theorem fix_enp_live_product_id_witness :
    List.Forall₂ (fun r rr =>
        ((["41412345678"] : List String).contains r.dn = true →
          rr.product_id = 1 ∧ rr.dn = r.dn ∧
          rr = updatedNumberRow (ENP_MAP EnpTarget.NXP1).1
                 (ENP_MAP EnpTarget.NXP1).2 "t" r) ∧
        ((["41412345678"] : List String).contains r.dn = false → rr = r))
      [⟨"41412345678", "r", 7, 1, 2, some "o", "u"⟩, ⟨"41400000000", "r", 8, 1, 2, none, "u"⟩]
      (fix_enp ⟨"0412345678", false, .NXP1⟩ "t"
        [⟨"41412345678", "r", 7, 1, 2, some "o", "u"⟩,
         ⟨"41400000000", "r", 8, 1, 2, none, "u"⟩]).2.1 :=
  fix_enp_live_product_id ⟨"0412345678", false, .NXP1⟩ "t"
    [⟨"41412345678", "r", 7, 1, 2, some "o", "u"⟩, ⟨"41400000000", "r", 8, 1, 2, none, "u"⟩]
    ⟨1, ["0412345678"], ["41412345678"], ["nprn:routing:41412345678"]⟩ rfl (by decide)

end App
